import Mathlib

/-!
Verification of the natural-language-to-SQL pipeline: a router that
classifies a model reply into CREATE/READ/UPDATE/DELETE by substring
matching, four prompt-template agents, and a SQL executor with
ad hoc result formatting and error trapping.  The definitions below
are a shallow embedding of `agent_graph.py`, `db_tools.py` and the
relevant fragment of `app.py`; external effects (the language model,
`mysql.connector`, `os.environ`) are passed in as explicit outcomes.
-/

/-- Python-style whitespace test: the six characters stripped by
`str.strip()` (space, tab, newline, carriage return, vertical tab,
form feed). -/
def isPyWs (c : Char) : Bool :=
  c = ' ' || c = '\t' || c = '\n' || c = '\r' || c = Char.ofNat 11 || c = Char.ofNat 12

/-- List-level model of Python `str.strip()`: drop whitespace from the
front, then from the back. -/
def pyStripL (l : List Char) : List Char :=
  ((l.dropWhile isPyWs).reverse.dropWhile isPyWs).reverse

/-- Model of Python `str.strip()`. -/
def pyStrip (s : String) : String :=
  String.mk (pyStripL s.data)

/-- Model of Python `str.upper()` (character-wise ASCII uppercasing,
as performed by `Char.toUpper`; the replies at issue are ASCII). -/
def pyUpper (s : String) : String :=
  String.mk (s.data.map Char.toUpper)

/-- Model of the Python substring test `sub in s`. -/
def strContains (s sub : String) : Bool :=
  decide (sub.data <:+: s.data)

/-- Embedding of the routing logic of `router_node` (agent_graph.py
lines 43-53): the model reply is stripped and uppercased into
`decision`, then matched against the substrings "CREATE", "UPDATE",
"DELETE" in that order, defaulting to "READ". -/
def router_route (reply : String) : String :=
  let decision := pyUpper (pyStrip reply)
  if strContains decision "CREATE" then "CREATE"
  else if strContains decision "UPDATE" then "UPDATE"
  else if strContains decision "DELETE" then "DELETE"
  else "READ"

/-- Embedding of the conditional-edge mapping passed to
`workflow.add_conditional_edges` in `get_agent_graph` (agent_graph.py
lines 189-198): the four labels map to the four agent nodes; any other
label has no target. -/
def route_targets (label : String) : Option String :=
  if label = "CREATE" then some "create_agent"
  else if label = "READ" then some "read_agent"
  else if label = "UPDATE" then some "update_agent"
  else if label = "DELETE" then some "delete_agent"
  else none

/-- Prompt built by `create_agent` (agent_graph.py lines 73-87), with
the schema and query interpolated where the f-string places them. -/
def create_agent_prompt (schema query : String) : String :=
  "\n    You are an expert MySQL developer. Your task is to generate a valid SQL DDL statement for creating a table or other database objects based on the user\x27s query and the database schema.\n\n    Database Schema:\n    "
  ++ schema
  ++ "\n\n    User Query:\n    "
  ++ query
  ++ "\n\n    Instructions:\n    1. Analyze the user\x27s query to understand the required table structure, column names, and data types.\n    2. Generate a single, complete \x60CREATE TABLE\x60 or similar DDL SQL statement.\n    3. Do NOT output any text or explanation other than the SQL query itself.\n    4. Do not incluude any backticks such as (\x60\x60\x60sql) in the output.\n    "

/-- Prompt built by `read_agent` (agent_graph.py lines 96-111). -/
def read_agent_prompt (schema query : String) : String :=
  "\n    You are an expert MySQL developer. Your task is to generate a valid SQL query to retrieve information from the database based on the user\x27s query and the database schema.\n\n    Database Schema:\n    "
  ++ schema
  ++ "\n\n    User Query:\n    "
  ++ query
  ++ "\n\n    Instructions:\n    1. Analyze the user\x27s query to understand what information they want to retrieve.\n    2. Generate a single, complete \x60SELECT\x60, \x60SHOW\x60, or \x60DESCRIBE\x60 SQL statement.\n    3. Do NOT output any text or explanation other than the SQL query itself.\n    4. Do not incluude any backticks such as (\x60\x60\x60sql) in the output.\n    \n    "

/-- Prompt built by `update_agent` (agent_graph.py lines 120-134). -/
def update_agent_prompt (schema query : String) : String :=
  "\n    You are an expert MySQL developer. Your task is to generate a valid SQL DML statement to modify data or table structures based on the user\x27s query and the database schema. This includes INSERT, UPDATE, and ALTER statements.\n\n    Database Schema:\n    "
  ++ schema
  ++ "\n\n    User Query:\n    "
  ++ query
  ++ "\n\n    Instructions:\n    1. Analyze the user\x27s query to understand what data or structure needs to be modified.\n    2. Generate a single, complete \x60UPDATE\x60, \x60INSERT\x60, or \x60ALTER TABLE\x60 SQL statement.\n    3. Do NOT output any text or explanation other than the SQL query itself.\n    4. Do not incluude any backticks such as (\x60\x60\x60sql) in the output.\n    "

/-- Prompt built by `delete_agent` (agent_graph.py lines 143-157). -/
def delete_agent_prompt (schema query : String) : String :=
  "\n    You are an expert MySQL developer. Your task is to generate a valid SQL DML/DDL statement to delete data or drop database objects based on the user\x27s query and the database schema.\n\n    Database Schema:\n    "
  ++ schema
  ++ "\n\n    User Query:\n    "
  ++ query
  ++ "\n\n    Instructions:\n    1. Analyze the user\x27s query to understand what data or objects need to be deleted.\n    2. Generate a single, complete \x60DELETE FROM\x60, \x60DROP TABLE\x60, or \x60TRUNCATE TABLE\x60 SQL statement.\n    3. Be cautious with \x60DROP\x60 and \x60DELETE\x60 operations. Ensure there\x27s a \x60WHERE\x60 clause if appropriate.\n    4. Do NOT output any text or explanation other than the SQL query itself.\n    "

/-- Embedding of the statement each agent node runs on the model reply:
`state[\x27sql_query\x27] = response.content.strip()` (agent_graph.py
lines 89, 113, 136, 159). -/
def agent_sql_query (content : String) : String :=
  pyStrip content

/-- Abstract handle standing for an open `mysql.connector` connection. -/
structure Connection where
  id : Nat
deriving DecidableEq, Repr

/-- Outcome of a call to `mysql.connector.connect`: either a connection
or a raised `mysql.connector.Error` with its message. -/
inductive ConnectOutcome where
  | ok (c : Connection)
  | mysqlErr (msg : String)
deriving DecidableEq, Repr

/-- Python exception escaping a modelled function uncaught. -/
inductive PyExc where
  | keyError (key : String)
deriving DecidableEq, Repr

/-- Embedding of `get_db_connection` (db_tools.py lines 10-22).  The
environment `env` models `os.environ` (a lookup that is `none` when the
variable is unset, in which case Python raises `KeyError`); `connect`
models `mysql.connector.connect`, whose `mysql.connector.Error` is the
only exception the `try` block catches.  The four environment reads
happen in the argument order host, user, password, database. -/
def get_db_connection (env : String → Option String)
    (connect : String → String → String → String → ConnectOutcome) :
    Except PyExc (Option Connection) :=
  match env "DB_HOST" with
  | none => Except.error (PyExc.keyError "DB_HOST")
  | some host =>
    match env "DB_USER" with
    | none => Except.error (PyExc.keyError "DB_USER")
    | some user =>
      match env "DB_PASSWORD" with
      | none => Except.error (PyExc.keyError "DB_PASSWORD")
      | some password =>
        match env "DB_NAME" with
        | none => Except.error (PyExc.keyError "DB_NAME")
        | some database =>
          match connect host user password database with
          | ConnectOutcome.ok c => Except.ok (some c)
          | ConnectOutcome.mysqlErr _ => Except.ok none

/-- Embedding of the schema panel choice in app.py lines 23-28: when the
connection is `None` the UI shows a fixed error text, otherwise it shows
the fetched schema. -/
def app_db_schema (connOpt : Option Connection)
    (fetchSchema : Connection → String) : String :=
  match connOpt with
  | some c => fetchSchema c
  | none => "Could not connect to the database. Please check your credentials."

/-- Database row as fetched by the cursor: the Python `repr` of each
cell, in column order (rows from `mysql.connector` are tuples). -/
abbrev Row := List String

/-- Outcome of `cursor.execute(query)` on the live database: a result
set with the column names from `cursor.description` (`with_rows` true),
no result set with the driver\x27s `rowcount` (`with_rows` false), or a
raised `mysql.connector.Error`. -/
inductive ExecOutcome where
  | rows (rs : List Row) (cols : List String)
  | noRows (rowcount : Int)
  | sqlError (msg : String)
deriving DecidableEq, Repr

/-- Python value returned by `execute_query`: a string, or the list of
row tuples when it escapes unformatted. -/
inductive QueryResult where
  | text (s : String)
  | pyList (rs : List Row)
deriving DecidableEq, Repr

/-- Python `str` of a row tuple, with the cells already in `repr` form;
a one-element tuple prints with a trailing comma. -/
def pyTupleRepr (r : Row) : String :=
  match r with
  | [c] => "(" ++ c ++ ",)"
  | cs => "(" ++ String.intercalate ", " cs ++ ")"

/-- Boolean discriminator: is the result a string? -/
def QueryResult.isText : QueryResult → Bool
  | QueryResult.text _ => true
  | QueryResult.pyList _ => false

/-- Embedding of `execute_query` (db_tools.py lines 48-75).  A falsy
connection short-circuits; otherwise the outcome of `cursor.execute`
decides the branch: an error is caught and rendered as "SQL Error: ...",
`with_rows` fetches all rows, anything else commits and reports
`rowcount`.  The post-formatting (`isinstance(result, list) and result
and isinstance(result[0], tuple)`) fires exactly when the fetched list
is nonempty, prepending the pipe-joined column names and a dash line;
an empty fetch is returned as the (empty) Python list itself. -/
def execute_query (conn : Option Connection) (outcome : ExecOutcome) :
    QueryResult :=
  match conn with
  | none => QueryResult.text "Could not connect to database."
  | some _ =>
    match outcome with
    | ExecOutcome.sqlError msg => QueryResult.text ("SQL Error: " ++ msg)
    | ExecOutcome.noRows rowcount =>
        QueryResult.text ("Query executed successfully. " ++ toString rowcount ++ " rows affected.")
    | ExecOutcome.rows rs cols =>
        match rs with
        | [] => QueryResult.pyList []
        | r :: rest =>
            let header := String.intercalate " | " cols
            QueryResult.text (header ++ "\n" ++ String.mk (List.replicate header.length '-') ++ "\n" ++ String.intercalate "\n" ((r :: rest).map pyTupleRepr))

/-- Whether `execute_query` reaches `conn.commit()` (db_tools.py line
60): only with a live connection, a successful execute and no result
set. -/
def execute_query_commits (conn : Option Connection) (outcome : ExecOutcome) : Bool :=
  match conn, outcome with
  | some _, ExecOutcome.noRows _ => true
  | _, _ => false

/-- Python `str` applied to the value `execute_query` returns, as done
by `sql_executor_node` (`state[\x27result\x27] = str(result)`). -/
def pyStr : QueryResult → String
  | QueryResult.text s => s
  | QueryResult.pyList rs => "[" ++ String.intercalate ", " (rs.map pyTupleRepr) ++ "]"

/-- Result text stored in the state by `sql_executor_node`
(agent_graph.py lines 162-169). -/
def sql_executor_result (conn : Option Connection) (outcome : ExecOutcome) : String :=
  pyStr (execute_query conn outcome)

lemma char_toNat_ofNat {n : Nat} (h : Nat.isValidChar n) : (Char.ofNat n).toNat = n := by
  rw [Char.ofNat, dif_pos h]
  rfl

lemma isPyWs_toNat_le {c : Char} (h : isPyWs c = true) : c.toNat ≤ 32 := by
  simp only [isPyWs, Bool.or_eq_true, decide_eq_true_eq] at h
  rcases h with ((((h | h) | h) | h) | h) | h <;> subst h <;> decide

lemma isPyWs_false_of_gt {c : Char} (h : 32 < c.toNat) : isPyWs c = false := by
  cases hw : isPyWs c
  · rfl
  · exact absurd (isPyWs_toNat_le hw) (by omega)

lemma char_toUpper_eq (c : Char) :
    Char.toUpper c = if c.toNat ≥ 97 ∧ c.toNat ≤ 122 then Char.ofNat (c.toNat - 32) else c := rfl

lemma isPyWs_toUpper (c : Char) : isPyWs (Char.toUpper c) = isPyWs c := by
  rw [char_toUpper_eq]
  split
  · rename_i h
    have h1 : 32 < c.toNat := by omega
    have h2 : (Char.ofNat (c.toNat - 32)).toNat = c.toNat - 32 :=
      char_toNat_ofNat (Or.inl (by omega))
    rw [isPyWs_false_of_gt h1, isPyWs_false_of_gt (by omega)]
  · rfl

lemma pyStripL_map_toUpper (l : List Char) :
    pyStripL (l.map Char.toUpper) = (pyStripL l).map Char.toUpper := by
  have hws : isPyWs ∘ Char.toUpper = isPyWs := funext isPyWs_toUpper
  unfold pyStripL
  rw [List.dropWhile_map, hws, ← List.map_reverse, List.dropWhile_map, hws, ← List.map_reverse]

lemma dropWhile_append_exists (p : Char → Bool) (a l b : List Char)
    (hne : l ≠ []) (hl : ∀ c ∈ l, p c = false) :
    ∃ a2, List.dropWhile p (a ++ (l ++ b)) = a2 ++ (l ++ b) := by
  induction a with
  | nil =>
    refine ⟨[], ?_⟩
    cases l with
    | nil => exact absurd rfl hne
    | cons h t =>
      have hh : p h = false := hl h (List.mem_cons_self h t)
      rw [List.nil_append, List.cons_append, List.dropWhile_cons, hh]
      simp
  | cons c a ih =>
    rcases ih with ⟨a2, ha2⟩
    by_cases hc : p c = true
    · refine ⟨a2, ?_⟩
      rw [List.cons_append, List.dropWhile_cons, if_pos hc]
      exact ha2
    · refine ⟨c :: a, ?_⟩
      rw [List.cons_append, List.dropWhile_cons, if_neg hc]

lemma pyStripL_keeps_sub {l t : List Char} (hne : l ≠ [])
    (hl : ∀ c ∈ l, isPyWs c = false) (h : l <:+: t) : l <:+: pyStripL t := by
  rcases h with ⟨a, b, rfl⟩
  unfold pyStripL
  rw [List.append_assoc]
  rcases dropWhile_append_exists isPyWs a l b hne hl with ⟨a2, ha2⟩
  rw [ha2]
  have hne' : l.reverse ≠ [] := by simpa using hne
  have hl' : ∀ c ∈ l.reverse, isPyWs c = false := fun c hc => hl c (List.mem_reverse.mp hc)
  rw [List.reverse_append, List.reverse_append]
  rcases dropWhile_append_exists isPyWs b.reverse l.reverse a2.reverse hne' hl' with ⟨b2, hb2⟩
  rw [List.append_assoc, hb2]
  refine ⟨a2, b2.reverse, ?_⟩
  simp [List.reverse_append, List.append_assoc]

lemma sub_of_sfx {l1 l2 : List Char} (h : l1 <:+ l2) : l1 <:+: l2 := by
  rcases h with ⟨t, rfl⟩
  exact ⟨t, [], by simp⟩

lemma sub_of_pfx {l1 l2 : List Char} (h : l1 <+: l2) : l1 <:+: l2 := by
  rcases h with ⟨t, rfl⟩
  exact ⟨[], t, by simp⟩

lemma pyStripL_within (l : List Char) : pyStripL l <:+: l := by
  have h1 : l.dropWhile isPyWs <:+ l := List.dropWhile_suffix isPyWs
  have h2 : (l.dropWhile isPyWs).reverse.dropWhile isPyWs <:+ (l.dropWhile isPyWs).reverse :=
    List.dropWhile_suffix isPyWs
  have h2' : ((l.dropWhile isPyWs).reverse.dropWhile isPyWs).reverse.reverse <:+
      (l.dropWhile isPyWs).reverse := by simpa using h2
  have h3 : pyStripL l <+: l.dropWhile isPyWs := List.reverse_suffix.mp h2'
  exact (sub_of_pfx h3).trans (sub_of_sfx h1)

lemma strContains_iff (s sub : String) : strContains s sub = true ↔ sub.data <:+: s.data := by
  simp [strContains]

lemma strContains_pyStrip_mono (r X : String)
    (h : strContains (pyUpper (pyStrip r)) X = true) : strContains (pyUpper r) X = true := by
  rw [strContains_iff] at h ⊢
  have hdata : (pyUpper (pyStrip r)).data = (pyStripL r.data).map Char.toUpper := rfl
  rw [hdata, ← pyStripL_map_toUpper] at h
  exact h.trans (pyStripL_within (r.data.map Char.toUpper))

lemma strContains_pyStrip_of_contains (r X : String) (hne : X.data ≠ [])
    (hws : ∀ c ∈ X.data, isPyWs c = false)
    (h : strContains (pyUpper r) X = true) : strContains (pyUpper (pyStrip r)) X = true := by
  rw [strContains_iff] at h ⊢
  have hdata : (pyUpper (pyStrip r)).data = (pyStripL r.data).map Char.toUpper := rfl
  rw [hdata, ← pyStripL_map_toUpper]
  exact pyStripL_keeps_sub hne hws h

lemma router_route_guard_create (r : String)
    (h : strContains (pyUpper (pyStrip r)) "CREATE" = true) : router_route r = "CREATE" := by
  unfold router_route
  simp [h]

lemma router_route_guard_update (r : String)
    (h1 : strContains (pyUpper (pyStrip r)) "CREATE" = false)
    (h2 : strContains (pyUpper (pyStrip r)) "UPDATE" = true) : router_route r = "UPDATE" := by
  unfold router_route
  simp [h1, h2]

lemma router_route_guard_delete (r : String)
    (h1 : strContains (pyUpper (pyStrip r)) "CREATE" = false)
    (h2 : strContains (pyUpper (pyStrip r)) "UPDATE" = false)
    (h3 : strContains (pyUpper (pyStrip r)) "DELETE" = true) : router_route r = "DELETE" := by
  unfold router_route
  simp [h1, h2, h3]

lemma router_route_guard_read (r : String)
    (h1 : strContains (pyUpper (pyStrip r)) "CREATE" = false)
    (h2 : strContains (pyUpper (pyStrip r)) "UPDATE" = false)
    (h3 : strContains (pyUpper (pyStrip r)) "DELETE" = false) : router_route r = "READ" := by
  unfold router_route
  simp [h1, h2, h3]

lemma strContains_pyStrip_false (r X : String)
    (h : strContains (pyUpper r) X = false) :
    strContains (pyUpper (pyStrip r)) X = false := by
  cases hc : strContains (pyUpper (pyStrip r)) X
  · rfl
  · have := strContains_pyStrip_mono r X hc
    rw [h] at this
    exact absurd this (by decide)

lemma strContains_concat5 (a s b q c : String) :
    strContains (a ++ s ++ b ++ q ++ c) s = true := by
  rw [strContains_iff]
  refine ⟨a.data, b.data ++ q.data ++ c.data, ?_⟩
  simp [List.append_assoc]

lemma dropWhile_eq_self_of_head (p : Char → Bool) (l : List Char)
    (h : ∀ c, l.head? = some c → p c = false) : l.dropWhile p = l := by
  cases l with
  | nil => rfl
  | cons x xs =>
    rw [List.dropWhile_cons, h x rfl]
    simp

lemma pyStripL_eq_self (l : List Char)
    (h1 : ∀ c, l.head? = some c → isPyWs c = false)
    (h2 : ∀ c, l.getLast? = some c → isPyWs c = false) :
    pyStripL l = l := by
  unfold pyStripL
  rw [dropWhile_eq_self_of_head _ _ h1,
    dropWhile_eq_self_of_head _ _ (fun c hc => h2 c (by rwa [List.head?_reverse] at hc)),
    List.reverse_reverse]

/-- Boolean test: does the list start or end with Python whitespace? -/
def hasEdgeWs (l : List Char) : Bool :=
  match l.head?, l.getLast? with
  | some a, some b => isPyWs a || isPyWs b
  | _, _ => false

lemma pyStripL_eq_self_of_no_edge (l : List Char) (h : hasEdgeWs l = false) :
    pyStripL l = l := by
  apply pyStripL_eq_self
  · intro c hc
    cases hl : l.getLast? with
    | none =>
      rw [List.getLast?_eq_none_iff] at hl
      subst hl
      cases hc
    | some b =>
      unfold hasEdgeWs at h
      rw [hc, hl] at h
      simp only [Bool.or_eq_false_iff] at h
      exact h.1
  · intro c hc
    cases hl : l.head? with
    | none =>
      rw [List.head?_eq_none_iff] at hl
      subst hl
      cases hc
    | some b =>
      unfold hasEdgeWs at h
      rw [hc, hl] at h
      simp only [Bool.or_eq_false_iff] at h
      exact h.2

/-- Claim C1 (counterexample): the frozen claim checks the three
substrings on the raw model reply, but the reply "create" contains none
of "CREATE", "UPDATE", "DELETE" as raw substrings and still routes to
CREATE, not to the claimed default READ. -/
theorem router_raw_reply_rule_refuted :
    strContains "create" "CREATE" = false ∧
    strContains "create" "UPDATE" = false ∧
    strContains "create" "DELETE" = false ∧
    router_route "create" = "CREATE" ∧
    router_route "create" ≠ "READ" := by decide

/-- Claim C1 (amended): the classifier first strips and uppercases the
reply; on that normalized string it assigns CREATE, else UPDATE, else
DELETE by substring containment in that order, and defaults to READ
when none of the three substrings occurs. -/
theorem router_rule_on_stripped_upper (r : String) :
    (strContains (pyUpper (pyStrip r)) "CREATE" = true → router_route r = "CREATE") ∧
    (strContains (pyUpper (pyStrip r)) "CREATE" = false →
      strContains (pyUpper (pyStrip r)) "UPDATE" = true → router_route r = "UPDATE") ∧
    (strContains (pyUpper (pyStrip r)) "CREATE" = false →
      strContains (pyUpper (pyStrip r)) "UPDATE" = false →
      strContains (pyUpper (pyStrip r)) "DELETE" = true → router_route r = "DELETE") ∧
    (strContains (pyUpper (pyStrip r)) "CREATE" = false →
      strContains (pyUpper (pyStrip r)) "UPDATE" = false →
      strContains (pyUpper (pyStrip r)) "DELETE" = false → router_route r = "READ") :=
  ⟨router_route_guard_create r, router_route_guard_update r,
   router_route_guard_delete r, router_route_guard_read r⟩

/-- Witness for the amended C1 theorem at concrete replies. -/
theorem router_rule_on_stripped_upper_witness :
    router_route " create " = "CREATE" ∧ router_route "none of these" = "READ" :=
  ⟨(router_rule_on_stripped_upper " create ").1 (by decide),
   (router_rule_on_stripped_upper "none of these").2.2.2 (by decide) (by decide) (by decide)⟩

/-- Claim C2 (counterexample): the reply "drop table" contains the
"drop table" wording, yet the router sends it to READ, not DELETE:
its uppercasing "DROP TABLE" contains none of the three checked
substrings. -/
theorem router_drop_table_reply_refuted :
    strContains (pyUpper "drop table") "DROP TABLE" = true ∧
    router_route "drop table" = "READ" ∧
    router_route "drop table" ≠ "DELETE" := by decide

/-- Claim C2 (amended): a classifier reply containing "create" wording
(case-insensitively) always routes to CREATE; a reply containing
"drop table" wording routes to READ rather than DELETE whenever it
contains none of the three checked substrings case-insensitively. -/
theorem router_create_drop_table_wording (r : String) :
    (strContains (pyUpper r) "CREATE" = true → router_route r = "CREATE") ∧
    (strContains (pyUpper r) "DROP TABLE" = true →
      strContains (pyUpper r) "CREATE" = false →
      strContains (pyUpper r) "UPDATE" = false →
      strContains (pyUpper r) "DELETE" = false →
      router_route r = "READ") := by
  constructor
  · intro h
    exact router_route_guard_create r
      (strContains_pyStrip_of_contains r "CREATE" (by decide) (by decide) h)
  · intro _ h1 h2 h3
    exact router_route_guard_read r (strContains_pyStrip_false r "CREATE" h1)
      (strContains_pyStrip_false r "UPDATE" h2) (strContains_pyStrip_false r "DELETE" h3)

/-- Witness for the amended C2 theorem at concrete replies. -/
theorem router_create_drop_table_wording_witness :
    router_route "Create a users table" = "CREATE" ∧
    router_route " drop table users " = "READ" :=
  ⟨(router_create_drop_table_wording "Create a users table").1 (by decide),
   (router_create_drop_table_wording " drop table users ").2
     (by decide) (by decide) (by decide) (by decide)⟩

/-- Claim C3: when `cursor.execute` raises a database error,
`execute_query` returns normally (it is a total function here) with the
error rendered as a string prefixed "SQL Error:"; the exception is not
propagated. -/
theorem execute_query_error_returns_string (c : Connection) (msg : String) :
    execute_query (some c) (ExecOutcome.sqlError msg) =
      QueryResult.text ("SQL Error: " ++ msg) ∧
    ∃ rest, (pyStr (execute_query (some c) (ExecOutcome.sqlError msg))).data =
      "SQL Error:".data ++ rest := by
  refine ⟨rfl, ⟨' ' :: msg.data, ?_⟩⟩
  show ("SQL Error: " ++ msg).data = "SQL Error:".data ++ (' ' :: msg.data)
  rw [String.data_append]
  rfl

/-- Claim C4: for every schema string and every category, the prompt the
statement generator sends contains the schema verbatim as a substring. -/
theorem agent_prompts_contain_schema (schema query : String) :
    strContains (create_agent_prompt schema query) schema = true ∧
    strContains (read_agent_prompt schema query) schema = true ∧
    strContains (update_agent_prompt schema query) schema = true ∧
    strContains (delete_agent_prompt schema query) schema = true :=
  ⟨strContains_concat5 _ schema _ query _, strContains_concat5 _ schema _ query _,
   strContains_concat5 _ schema _ query _, strContains_concat5 _ schema _ query _⟩

/-- Claim C5 (counterexample): a row-returning query with an empty
result set makes `execute_query` return the raw empty list, which is
neither the pipe-formatted text nor the "rows affected" message the
claim allows. -/
theorem execute_query_empty_rowset_refutes :
    execute_query (some ⟨0⟩) (ExecOutcome.rows [] ["id"]) = QueryResult.pyList [] ∧
    (execute_query (some ⟨0⟩) (ExecOutcome.rows [] ["id"])).isText = false := by decide

/-- Claim C5 (amended): on a live connection without a database error, a
nonempty result set is fetched whole and formatted as the pipe-joined
column-name header, a dash separator line, and the rows; a statement
with no result set commits and reports the affected-row count; an empty
result set is returned as the raw empty list. -/
theorem execute_query_branches (c : Connection) (cols : List String)
    (r : Row) (rs : List Row) (n : Int) :
    execute_query (some c) (ExecOutcome.rows (r :: rs) cols) =
      QueryResult.text (String.intercalate " | " cols ++ "\n" ++
        String.mk (List.replicate (String.intercalate " | " cols).length '-') ++ "\n" ++
        String.intercalate "\n" ((r :: rs).map pyTupleRepr)) ∧
    execute_query (some c) (ExecOutcome.noRows n) =
      QueryResult.text ("Query executed successfully. " ++ toString n ++ " rows affected.") ∧
    execute_query_commits (some c) (ExecOutcome.noRows n) = true ∧
    execute_query_commits (some c) (ExecOutcome.rows (r :: rs) cols) = false ∧
    execute_query (some c) (ExecOutcome.rows [] cols) = QueryResult.pyList [] :=
  ⟨rfl, rfl, rfl, rfl, rfl⟩

/-- Claim C6 (counterexample): the generator is not the identity on the
model reply: a reply with a trailing newline is stored stripped. -/
theorem agent_reply_not_identity :
    agent_sql_query "SELECT 1;\n" ≠ "SELECT 1;\n" ∧
    agent_sql_query "SELECT 1;\n" = "SELECT 1;" := by decide

/-- Claim C6 (amended): the SQL statement stored in the state is the
model reply with leading and trailing whitespace stripped: it is always
a contiguous substring of the reply, and equals the reply whenever the
reply neither starts nor ends with whitespace. -/
theorem agent_sql_query_strips_reply (content : String) :
    (agent_sql_query content).data <:+: content.data ∧
    (hasEdgeWs content.data = false → agent_sql_query content = content) := by
  constructor
  · exact pyStripL_within content.data
  · intro h
    cases content with
    | mk data =>
      show String.mk (pyStripL data) = String.mk data
      rw [pyStripL_eq_self_of_no_edge data h]

/-- Witness for the amended C6 theorem at a concrete whitespace-free
reply. -/
theorem agent_sql_query_strips_reply_witness :
    agent_sql_query "SELECT 1;" = "SELECT 1;" :=
  (agent_sql_query_strips_reply "SELECT 1;").2 (by decide)

/-- Claim C7: every reply routes to one of the four fixed labels, and
the conditional-edge dispatch map of the graph has a target for the
router output, so the four-way dispatch is total. -/
theorem router_route_total (reply : String) :
    (router_route reply = "CREATE" ∨ router_route reply = "READ" ∨
     router_route reply = "UPDATE" ∨ router_route reply = "DELETE") ∧
    (route_targets (router_route reply)).isSome = true := by
  cases hC : strContains (pyUpper (pyStrip reply)) "CREATE"
  · cases hU : strContains (pyUpper (pyStrip reply)) "UPDATE"
    · cases hD : strContains (pyUpper (pyStrip reply)) "DELETE"
      · rw [router_route_guard_read reply hC hU hD]
        exact ⟨Or.inr (Or.inl rfl), by decide⟩
      · rw [router_route_guard_delete reply hC hU hD]
        exact ⟨Or.inr (Or.inr (Or.inr rfl)), by decide⟩
    · rw [router_route_guard_update reply hC hU]
      exact ⟨Or.inr (Or.inr (Or.inl rfl)), by decide⟩
  · rw [router_route_guard_create reply hC]
    exact ⟨Or.inl rfl, by decide⟩

/-- Claim C8: when all four environment variables are set and the driver
raises on connecting, `get_db_connection` returns `none` instead of
propagating the exception, and the app then shows the fixed plain error
text as the schema panel. -/
theorem get_db_connection_driver_error_none
    (env : String → Option String)
    (connect : String → String → String → String → ConnectOutcome)
    (host user password database msg : String)
    (hh : env "DB_HOST" = some host) (hu : env "DB_USER" = some user)
    (hp : env "DB_PASSWORD" = some password) (hn : env "DB_NAME" = some database)
    (hc : connect host user password database = ConnectOutcome.mysqlErr msg) :
    get_db_connection env connect = Except.ok none ∧
    (∀ fetch : Connection → String, app_db_schema none fetch =
      "Could not connect to the database. Please check your credentials.") := by
  refine ⟨?_, fun _ => rfl⟩
  simp only [get_db_connection, hh, hu, hp, hn, hc]

/-- Witness for the C8 theorem with a concrete environment and a
concrete failing driver. -/
theorem get_db_connection_driver_error_none_witness :
    get_db_connection
      (fun k => if k = "DB_HOST" then some "localhost" else if k = "DB_USER" then some "root"
        else if k = "DB_PASSWORD" then some "pw" else if k = "DB_NAME" then some "db" else none)
      (fun _ _ _ _ => ConnectOutcome.mysqlErr "Access denied") = Except.ok none ∧
    app_db_schema none (fun _ => "s") =
      "Could not connect to the database. Please check your credentials." := by
  have h := get_db_connection_driver_error_none
    (fun k => if k = "DB_HOST" then some "localhost" else if k = "DB_USER" then some "root"
      else if k = "DB_PASSWORD" then some "pw" else if k = "DB_NAME" then some "db" else none)
    (fun _ _ _ _ => ConnectOutcome.mysqlErr "Access denied")
    "localhost" "root" "pw" "db" "Access denied" (by decide) (by decide) (by decide) (by decide) rfl
  exact ⟨h.1, h.2 (fun _ => "s")⟩

/-- Claim C9: a row-returning query with an empty result set yields the
raw empty list, which `sql_executor_node` renders as the literal text
"[]" via `str`. -/
theorem execute_query_empty_rowset_brackets (c : Connection) (cols : List String) :
    execute_query (some c) (ExecOutcome.rows [] cols) = QueryResult.pyList [] ∧
    sql_executor_result (some c) (ExecOutcome.rows [] cols) = "[]" :=
  ⟨rfl, rfl⟩

/-- Claim C10: if any of the four database environment variables is
unset, `get_db_connection` raises `KeyError` (the `except` clause
catches only the driver error), and in particular does not return
`None`. -/
theorem get_db_connection_missing_env_keyerror
    (env : String → Option String)
    (connect : String → String → String → String → ConnectOutcome)
    (h : env "DB_HOST" = none ∨ env "DB_USER" = none ∨
      env "DB_PASSWORD" = none ∨ env "DB_NAME" = none) :
    (∃ k, get_db_connection env connect = Except.error (PyExc.keyError k)) ∧
    (∀ copt, get_db_connection env connect ≠ Except.ok copt) := by
  have hmain : ∃ k, get_db_connection env connect = Except.error (PyExc.keyError k) := by
    unfold get_db_connection
    cases hH : env "DB_HOST" with
    | none => exact ⟨"DB_HOST", rfl⟩
    | some host =>
      cases hU : env "DB_USER" with
      | none => exact ⟨"DB_USER", rfl⟩
      | some user =>
        cases hP : env "DB_PASSWORD" with
        | none => exact ⟨"DB_PASSWORD", rfl⟩
        | some pw =>
          cases hN : env "DB_NAME" with
          | none => exact ⟨"DB_NAME", rfl⟩
          | some db => rcases h with h | h | h | h <;> simp_all
  rcases hmain with ⟨k, hk⟩
  refine ⟨⟨k, hk⟩, fun copt hc => ?_⟩
  rw [hk] at hc
  cases hc

/-- Witness for the C10 theorem with a concrete environment missing
DB_PASSWORD. -/
theorem get_db_connection_missing_env_keyerror_witness :
    ∃ k, get_db_connection
      (fun v => if v = "DB_HOST" then some "localhost" else if v = "DB_USER" then some "root" else none)
      (fun _ _ _ _ => ConnectOutcome.mysqlErr "unused") =
      Except.error (PyExc.keyError k) :=
  (get_db_connection_missing_env_keyerror
    (fun v => if v = "DB_HOST" then some "localhost" else if v = "DB_USER" then some "root" else none)
    (fun _ _ _ _ => ConnectOutcome.mysqlErr "unused")
    (Or.inr (Or.inr (Or.inl (by decide))))).1
